import Mathlib

/-!
Shallow embedding of the build-demo-site repository:
  * the clustered HTTP service (supervisor + worker request handler), and
  * the load-generation utility (loadtest.js),
with the numeric JavaScript semantics the claims depend on modelled over ℚ,
extended by a small `JSNum` type (finite / ±Infinity / NaN) where the
division `successfulRequests / totalRequests` can produce a non-finite value.
-/

/-- JavaScript numbers as needed here: a finite rational, ±Infinity, or NaN. -/
inductive JSNum where
  | fin (q : ℚ)
  | posInf
  | negInf
  | nan
deriving DecidableEq

/-- JavaScript division `a / b` for finite `a b`: division by zero yields
NaN when the numerator is zero, ±Infinity otherwise. -/
def jsDivQ (a b : ℚ) : JSNum :=
  if b = 0 then
    if a = 0 then .nan else if 0 < a then .posInf else .negInf
  else .fin (a / b)

/-- JavaScript multiplication on `JSNum`. -/
def jsMul : JSNum → JSNum → JSNum
  | .nan, _ | _, .nan => .nan
  | .fin a, .fin b => .fin (a * b)
  | .posInf, .posInf | .negInf, .negInf => .posInf
  | .posInf, .negInf | .negInf, .posInf => .negInf
  | .posInf, .fin b | .fin b, .posInf =>
      if 0 < b then .posInf else if b < 0 then .negInf else .nan
  | .negInf, .fin b | .fin b, .negInf =>
      if 0 < b then .negInf else if b < 0 then .posInf else .nan

/-- JavaScript strict greater-than `a > b`: any comparison with NaN is false. -/
def jsGt : JSNum → JSNum → Bool
  | .nan, _ | _, .nan => false
  | .fin a, .fin b => decide (b < a)
  | .posInf, .posInf | .negInf, _ | .fin _, .posInf => false
  | .posInf, _ | .fin _, .negInf => true

/-- `Math.min` of a `JSNum` accumulator and a finite value (the accumulator
starts at `Infinity` in the load generator's metrics object). -/
def jsMinF : JSNum → ℚ → JSNum
  | .fin a, x => .fin (min a x)
  | .posInf, x => .fin x
  | .negInf, _ => .negInf
  | .nan, _ => .nan

/-- JavaScript `String.prototype.includes` on character lists. -/
def hasSubstr (pat : List Char) : List Char → Bool
  | [] => pat.isEmpty
  | c :: rest => pat.isPrefixOf (c :: rest) || hasSubstr pat rest

/-- JavaScript `s.includes(pat)`. -/
def jsIncludes (s pat : String) : Bool :=
  hasSubstr pat.data s.data

/-- `x.toFixed(2)` viewed as a rounding operation on the numeric value:
round to the nearest multiple of 1/100, ties toward the larger value
(Mathlib's `round` is `⌊x + 1/2⌋`, which matches ECMAScript's
"pick the larger n" tie rule). -/
def round2 (x : ℚ) : ℚ :=
  (round (x * 100) : ℤ) / 100

/-! ## Service side: the worker's request handler (src/unnamed/part_000) -/

namespace Server

/-- The worker's mutable metrics object:
`{ requestCount: 0, totalResponseTime: 0, startTime: Date.now(), errors: 0 }`. -/
structure Metrics where
  requestCount : ℕ
  totalResponseTime : ℚ
  startTime : ℤ
  errors : ℕ
deriving DecidableEq

/-- Immutable per-worker response payload: the raw HTML bytes and the
pre-computed `zlib.gzipSync` bytes (`htmlBuffer` / `compressedHtml`). -/
structure Payload where
  htmlBuffer : List ℕ
  compressedHtml : List ℕ
deriving DecidableEq

/-- An incoming request as the handler consumes it: its `req.url` and its
`accept-encoding` header (absent header modelled by `""`, as the code's
`req.headers["accept-encoding"] || ""` does). -/
structure Request where
  url : String
  acceptEncoding : String
deriving DecidableEq

/-- The JSON document written by the `/health` branch.
`avg_response_time_ms` carries the numeric value of the 2-decimal
`toFixed(2)` string (or the number `0` when no requests were handled). -/
structure HealthDoc where
  status : String
  uptime_ms : ℤ
  requests_handled : ℕ
  avg_response_time_ms : ℚ
  errors : ℕ
deriving DecidableEq

/-- The values interpolated into the `/metrics` exposition text. -/
structure MetricsDoc where
  http_requests_total : ℕ
  http_response_time_avg_ms : ℚ
  process_uptime_ms : ℤ
  http_errors_total : ℕ
deriving DecidableEq

/-- The payload branch's response: status, headers and body bytes. -/
structure PayloadResponse where
  statusCode : ℕ
  contentType : String
  cacheControl : String
  etag : String
  xContentTypeOptions : String
  xFrameOptions : String
  contentEncoding : Option String
  contentLength : ℕ
  body : List ℕ
deriving DecidableEq

/-- What one invocation of the `http.createServer` callback sends. -/
inductive Response where
  | health (doc : HealthDoc)
  | metricsText (doc : MetricsDoc)
  | payload (r : PayloadResponse)
deriving DecidableEq

/-- One invocation of the request handler.  `now` is `Date.now()` and
`elapsedMs` the wall-clock time the handler spends producing the payload
response (the `hrtime` difference accumulated into `totalResponseTime`;
the `/health` and `/metrics` branches return before that accumulation). -/
def handleRequest (p : Payload) (now : ℤ) (elapsedMs : ℚ) (m : Metrics)
    (req : Request) : Metrics × Response :=
  if req.url = "/health" then
    (m, .health
      { status := "healthy"
        uptime_ms := now - m.startTime
        requests_handled := m.requestCount
        avg_response_time_ms :=
          if m.requestCount > 0 then
            round2 (m.totalResponseTime / (m.requestCount : ℚ))
          else 0
        errors := m.errors })
  else if req.url = "/metrics" then
    (m, .metricsText
      { http_requests_total := m.requestCount
        http_response_time_avg_ms :=
          if m.requestCount > 0 then
            round2 (m.totalResponseTime / (m.requestCount : ℚ))
          else 0
        process_uptime_ms := now - m.startTime
        http_errors_total := m.errors })
  else
    let m1 : Metrics := { m with requestCount := m.requestCount + 1 }
    let resp : PayloadResponse :=
      if jsIncludes req.acceptEncoding "gzip" then
        { statusCode := 200
          contentType := "text/html; charset=utf-8"
          cacheControl := "public, max-age=300, stale-while-revalidate=600"
          etag := toString p.htmlBuffer.length ++ "-v1"
          xContentTypeOptions := "nosniff"
          xFrameOptions := "DENY"
          contentEncoding := some "gzip"
          contentLength := p.compressedHtml.length
          body := p.compressedHtml }
      else
        { statusCode := 200
          contentType := "text/html; charset=utf-8"
          cacheControl := "public, max-age=300, stale-while-revalidate=600"
          etag := toString p.htmlBuffer.length ++ "-v1"
          xContentTypeOptions := "nosniff"
          xFrameOptions := "DENY"
          contentEncoding := none
          contentLength := p.htmlBuffer.length
          body := p.htmlBuffer }
    let m2 : Metrics := { m1 with totalResponseTime := m1.totalResponseTime + elapsedMs }
    (m2, .payload resp)

/-- Projection: the `avg_response_time_ms` field of a health response. -/
def Response.avgField : Response → Option ℚ
  | .health d => some d.avg_response_time_ms
  | _ => none

/-- Projection: the payload response, when the response is one. -/
def Response.payloadOf : Response → Option PayloadResponse
  | .payload r => some r
  | _ => none

end Server

/-! ## Supervisor (cluster primary) model (src/unnamed/part_000, lines 18-40) -/

namespace Supervisor

/-- The primary's observable state: how many workers are live, how many
`cluster.fork()` calls it has made, and whether the primary process is
still running (it calls `process.exit(0)` inside its SIGTERM handler,
after which no `cluster.on("exit")` callback can run). -/
structure SupState where
  liveWorkers : ℕ
  forkCount : ℕ
  primaryAlive : Bool
deriving DecidableEq

/-- Events the primary reacts to: a worker process exiting, or SIGTERM. -/
inductive SupEvent where
  | workerExit
  | sigterm
deriving DecidableEq

/-- The primary's reaction.  While the primary is alive, the
`cluster.on("exit")` handler runs `cluster.fork()` unconditionally, so a
worker exit is answered by exactly one replacement fork.  On SIGTERM the
primary forwards SIGTERM to every worker and exits at once, so worker
exits caused by that shutdown find no live primary and are not replaced. -/
def supStep (s : SupState) : SupEvent → SupState
  | .workerExit =>
      if s.primaryAlive then
        { s with liveWorkers := s.liveWorkers - 1 + 1, forkCount := s.forkCount + 1 }
      else
        { s with liveWorkers := s.liveWorkers - 1 }
  | .sigterm => { s with primaryAlive := false }

end Supervisor

/-! ## Load generator (src/loadtest.js) -/

namespace LoadTest

/-- The per-request timeout passed to `http.get` (milliseconds). -/
def requestTimeoutMs : ℕ := 30000

/-- The shared `metrics` object of the load generator. -/
structure LoadMetrics where
  totalRequests : ℕ
  successfulRequests : ℕ
  failedRequests : ℕ
  totalLatency : ℚ
  minLatency : JSNum
  maxLatency : ℚ
  latencies : List ℚ
  statusCodes : ℕ → ℕ
  errors : String → ℕ

/-- The initial metrics object (`minLatency: Infinity`, all else zero/empty). -/
def initMetrics : LoadMetrics :=
  { totalRequests := 0
    successfulRequests := 0
    failedRequests := 0
    totalLatency := 0
    minLatency := .posInf
    maxLatency := 0
    latencies := []
    statusCodes := fun _ => 0
    errors := fun _ => 0 }

/-- How one `makeRequest` promise resolves: a completed HTTP response
(with status code and measured latency), a transport error (with the
classification `err.code || err.message`), or the 30-second timeout. -/
inductive Outcome where
  | response (statusCode : ℕ) (latency : ℚ)
  | transportError (kind : String)
  | timeout
deriving DecidableEq

/-- The recording step each `makeRequest` completion performs on `metrics`. -/
def recordOutcome (m : LoadMetrics) : Outcome → LoadMetrics
  | .response status latency =>
      let m1 : LoadMetrics :=
        { m with
          totalRequests := m.totalRequests + 1
          totalLatency := m.totalLatency + latency
          latencies := m.latencies ++ [latency]
          minLatency := jsMinF m.minLatency latency
          maxLatency := max m.maxLatency latency
          statusCodes := Function.update m.statusCodes status (m.statusCodes status + 1) }
      if 200 ≤ status ∧ status < 400 then
        { m1 with successfulRequests := m1.successfulRequests + 1 }
      else
        { m1 with failedRequests := m1.failedRequests + 1 }
  | .transportError kind =>
      { m with
        totalRequests := m.totalRequests + 1
        failedRequests := m.failedRequests + 1
        errors := Function.update m.errors kind (m.errors kind + 1) }
  | .timeout =>
      { m with
        totalRequests := m.totalRequests + 1
        failedRequests := m.failedRequests + 1
        errors := Function.update m.errors "TIMEOUT" (m.errors "TIMEOUT" + 1) }

/-- The metrics state after a run whose request completions, in recording
order, are `outcomes`. -/
def runStats (outcomes : List Outcome) : LoadMetrics :=
  outcomes.foldl recordOutcome initMetrics

/-- `calculatePercentile` from loadtest.js:
empty array yields 0; otherwise index `ceil(p/100 * n) - 1` clamped to ≥ 0. -/
def calculatePercentile (sortedArray : List ℚ) (percentile : ℚ) : ℚ :=
  if sortedArray.length = 0 then 0
  else
    let index : ℤ := ⌈percentile / 100 * (sortedArray.length : ℚ)⌉ - 1
    sortedArray.getD (max 0 index).toNat 0

/-- The nearest-rank index the spec describes: `max(0, ceil(p/100 * n) - 1)`. -/
def nearestRankIndex (percentile : ℚ) (n : ℕ) : ℕ :=
  (max 0 (⌈percentile / 100 * (n : ℚ)⌉ - 1)).toNat

/-- Ascending insertion into a sorted list (for `latencies.sort((a, b) => a - b)`). -/
def insertAsc (x : ℚ) : List ℚ → List ℚ
  | [] => [x]
  | y :: ys => if x ≤ y then x :: y :: ys else y :: insertAsc x ys

/-- Ascending sort of the latency samples. -/
def sortAsc (l : List ℚ) : List ℚ :=
  l.foldr insertAsc []

/-- `(metrics.successfulRequests / metrics.totalRequests) * 100`, with
JavaScript division semantics (0/0 is NaN). -/
def successRate (m : LoadMetrics) : JSNum :=
  jsMul (jsDivQ (m.successfulRequests : ℚ) (m.totalRequests : ℚ)) (.fin 100)

/-- Check 1: `successRate > 99` (strict, NaN compares false). -/
def check1Passed (m : LoadMetrics) : Bool :=
  jsGt (successRate m) (.fin 99)

/-- P95 of the run: percentile 95 of the ascending-sorted latency samples. -/
def p95Of (m : LoadMetrics) : ℚ :=
  calculatePercentile (sortAsc m.latencies) 95

/-- P99 of the run. -/
def p99Of (m : LoadMetrics) : ℚ :=
  calculatePercentile (sortAsc m.latencies) 99

/-- Check 2: `p95 < 500`. -/
def check2Passed (m : LoadMetrics) : Bool :=
  decide (p95Of m < 500)

/-- Check 3: `p99 < 1000`. -/
def check3Passed (m : LoadMetrics) : Bool :=
  decide (p99Of m < 1000)

/-- `(errors["ECONNREFUSED"] || 0) + (errors["ECONNRESET"] || 0) + (errors["TIMEOUT"] || 0)`. -/
def connectionErrors (m : LoadMetrics) : ℕ :=
  m.errors "ECONNREFUSED" + m.errors "ECONNRESET" + m.errors "TIMEOUT"

/-- Check 4: `connectionErrors === 0`. -/
def check4Passed (m : LoadMetrics) : Bool :=
  decide (connectionErrors m = 0)

/-- `allPassed`: every validation check passed. -/
def allChecksPassed (m : LoadMetrics) : Bool :=
  check1Passed m && check2Passed m && check3Passed m && check4Passed m

/-- `process.exit(allPassed ? 0 : 1)` at the end of `runLoadTest`. -/
def loadTestExit (m : LoadMetrics) : ℕ :=
  if allChecksPassed m then 0 else 1

/-- The whole program: `runLoadTest().catch(err => ... process.exit(1))`.
A run that completes yields its final metrics; an escaping exception is
the `Except.error` case and exits with code 1. -/
def runLoadTestExit : Except Unit LoadMetrics → ℕ
  | .ok m => loadTestExit m
  | .error _ => 1

end LoadTest

/-! ## Helper lemmas -/

namespace LoadTest

/-- Every recording step increments `totalRequests` by exactly one. -/
theorem recordOutcome_total (m : LoadMetrics) (o : Outcome) :
    (recordOutcome m o).totalRequests = m.totalRequests + 1 := by
  cases o with
  | response status latency =>
      by_cases h : 200 ≤ status ∧ status < 400 <;> simp [recordOutcome, h]
  | transportError kind => simp [recordOutcome]
  | timeout => simp [recordOutcome]

/-- Every recording step increments `successfulRequests + failedRequests`
by exactly one. -/
theorem recordOutcome_succ_fail (m : LoadMetrics) (o : Outcome) :
    (recordOutcome m o).successfulRequests + (recordOutcome m o).failedRequests
      = m.successfulRequests + m.failedRequests + 1 := by
  cases o with
  | response status latency =>
      by_cases h : 200 ≤ status ∧ status < 400 <;> simp [recordOutcome, h] <;> omega
  | transportError kind => simp [recordOutcome]; omega
  | timeout => simp [recordOutcome]; omega

/-- Folding the recording step over a list of outcomes adds the list's
length to `totalRequests`. -/
theorem foldl_record_total (os : List Outcome) (m : LoadMetrics) :
    (os.foldl recordOutcome m).totalRequests = m.totalRequests + os.length := by
  induction os generalizing m with
  | nil => simp
  | cons o os ih => simp [ih, recordOutcome_total]; omega

/-- Folding the recording step preserves the accounting invariant. -/
theorem foldl_record_succ_fail (os : List Outcome) (m : LoadMetrics)
    (h : m.successfulRequests + m.failedRequests = m.totalRequests) :
    (os.foldl recordOutcome m).successfulRequests
      + (os.foldl recordOutcome m).failedRequests
      = (os.foldl recordOutcome m).totalRequests := by
  induction os generalizing m with
  | nil => simpa using h
  | cons o os ih =>
      refine List.foldl_cons _ _ ▸ ih (recordOutcome m o) ?_
      rw [recordOutcome_succ_fail, recordOutcome_total, h]

/-- `allPassed` unfolded into the four individual validation checks. -/
theorem allChecksPassed_iff (m : LoadMetrics) :
    allChecksPassed m = true ↔
      check1Passed m = true ∧ p95Of m < 500 ∧ p99Of m < 1000 ∧
        connectionErrors m = 0 := by
  simp [allChecksPassed, check2Passed, check3Passed, check4Passed,
    Bool.and_eq_true, decide_eq_true_iff, and_assoc]

end LoadTest

/-! ## Claims -/

/-- C1: the load generator's percentile function on an ascending-sorted
sample sequence of length `n > 0` returns the element at index
`max(0, ceil(p/100 * n) - 1)` (nearest rank, no interpolation), an index
that is in bounds for `0 < p ≤ 100`; in particular on `[10,20,30,40,50]`
the 50th percentile is 30 and the 95th is 50. -/
theorem c1_percentile_nearest_rank (l : List ℚ) (p : ℚ)
    (hn : 0 < l.length) (hp : p ≤ 100) :
    LoadTest.nearestRankIndex p l.length < l.length ∧
    LoadTest.calculatePercentile l p = l.getD (LoadTest.nearestRankIndex p l.length) 0 ∧
    LoadTest.calculatePercentile [10, 20, 30, 40, 50] 50 = 30 ∧
    LoadTest.calculatePercentile [10, 20, 30, 40, 50] 95 = 50 := by
  refine ⟨?_, ?_, ?_, ?_⟩
  · have h1 : p / 100 * (l.length : ℚ) ≤ (l.length : ℚ) := by
      have h2 : p / 100 ≤ 1 := by linarith
      have h3 : (0 : ℚ) ≤ (l.length : ℚ) := by positivity
      nlinarith
    have h4 : ⌈p / 100 * (l.length : ℚ)⌉ ≤ (l.length : ℤ) := by
      rw [Int.ceil_le]; push_cast; exact h1
    rw [LoadTest.nearestRankIndex, Int.toNat_lt' (Nat.pos_iff_ne_zero.mp hn)]
    omega
  · simp [LoadTest.calculatePercentile, LoadTest.nearestRankIndex, hn.ne']
  · norm_num [LoadTest.calculatePercentile]
    rw [show ⌈(5 : ℚ) / 2⌉ = 3 by rw [Int.ceil_eq_iff]; norm_num]
    rfl
  · norm_num [LoadTest.calculatePercentile]
    rw [show ⌈(19 : ℚ) / 4⌉ = 5 by rw [Int.ceil_eq_iff]; norm_num]
    rfl

/-- Witness for C1 at the concrete sorted sequence `[10,20,30,40,50]`, `p = 50`. -/
theorem c1_percentile_nearest_rank_witness :
    LoadTest.calculatePercentile [10, 20, 30, 40, 50] 50
      = ([10, 20, 30, 40, 50] : List ℚ).getD
          (LoadTest.nearestRankIndex 50 ([10, 20, 30, 40, 50] : List ℚ).length) 0 :=
  (c1_percentile_nearest_rank [10, 20, 30, 40, 50] 50 (by norm_num) (by norm_num)).2.1

/-- C2: for every metrics state, the `avg_response_time_ms` field of the
GET /health response is `totalResponseTime / requestCount` rounded to two
decimal places when `requestCount > 0`, and `0` when `requestCount = 0`. -/
theorem c2_health_avg_response_time (p : Server.Payload) (now : ℤ) (elapsed : ℚ)
    (m : Server.Metrics) (ae : String) :
    (0 < m.requestCount →
      ((Server.handleRequest p now elapsed m ⟨"/health", ae⟩).2).avgField
        = some (round2 (m.totalResponseTime / (m.requestCount : ℚ)))) ∧
    (m.requestCount = 0 →
      ((Server.handleRequest p now elapsed m ⟨"/health", ae⟩).2).avgField = some 0) := by
  constructor
  · intro h
    simp [Server.handleRequest, Server.Response.avgField, h]
  · intro h
    simp [Server.handleRequest, Server.Response.avgField, h]

/-- Witness for C2 at a state with 2 requests totalling 7 ms, and at the
fresh state with no requests. -/
theorem c2_health_avg_response_time_witness :
    ((Server.handleRequest ⟨[], []⟩ 0 0 ⟨2, 7, 0, 0⟩ ⟨"/health", ""⟩).2).avgField
      = some (round2 (7 / ((2 : ℕ) : ℚ))) ∧
    ((Server.handleRequest ⟨[], []⟩ 0 0 ⟨0, 0, 0, 0⟩ ⟨"/health", ""⟩).2).avgField
      = some 0 :=
  ⟨(c2_health_avg_response_time ⟨[], []⟩ 0 0 ⟨2, 7, 0, 0⟩ "").1 (by norm_num),
   (c2_health_avg_response_time ⟨[], []⟩ 0 0 ⟨0, 0, 0, 0⟩ "").2 rfl⟩

/-- C3: handling GET /health or GET /metrics leaves `requestCount`
unchanged; handling any other path increments it by exactly one. -/
theorem c3_request_count_frame (p : Server.Payload) (now : ℤ) (elapsed : ℚ)
    (m : Server.Metrics) (req : Server.Request) :
    ((req.url = "/health" ∨ req.url = "/metrics") →
      (Server.handleRequest p now elapsed m req).1.requestCount = m.requestCount) ∧
    (req.url ≠ "/health" → req.url ≠ "/metrics" →
      (Server.handleRequest p now elapsed m req).1.requestCount
        = m.requestCount + 1) := by
  constructor
  · rintro (h | h) <;> simp [Server.handleRequest, h]
  · intro h1 h2
    simp [Server.handleRequest, h1, h2]

/-- Witness for C3: the diagnostic routes do not count, the root path does. -/
theorem c3_request_count_frame_witness :
    (Server.handleRequest ⟨[], []⟩ 0 0 ⟨5, 0, 0, 0⟩ ⟨"/metrics", ""⟩).1.requestCount = 5 ∧
    (Server.handleRequest ⟨[], []⟩ 0 0 ⟨5, 0, 0, 0⟩ ⟨"/", ""⟩).1.requestCount = 6 :=
  ⟨(c3_request_count_frame ⟨[], []⟩ 0 0 ⟨5, 0, 0, 0⟩ ⟨"/metrics", ""⟩).1 (Or.inr rfl),
   (c3_request_count_frame ⟨[], []⟩ 0 0 ⟨5, 0, 0, 0⟩ ⟨"/", ""⟩).2
     (by decide) (by decide)⟩

/-- C4: the accounting invariant
`successfulRequests + failedRequests = totalRequests` is preserved by
every recording step and therefore holds after any run. -/
theorem c4_success_plus_failed_eq_total (m : LoadTest.LoadMetrics)
    (o : LoadTest.Outcome) (outcomes : List LoadTest.Outcome) :
    (m.successfulRequests + m.failedRequests = m.totalRequests →
      (LoadTest.recordOutcome m o).successfulRequests
        + (LoadTest.recordOutcome m o).failedRequests
        = (LoadTest.recordOutcome m o).totalRequests) ∧
    (LoadTest.runStats outcomes).successfulRequests
      + (LoadTest.runStats outcomes).failedRequests
      = (LoadTest.runStats outcomes).totalRequests := by
  constructor
  · intro h
    rw [LoadTest.recordOutcome_succ_fail, LoadTest.recordOutcome_total, h]
  · exact LoadTest.foldl_record_succ_fail outcomes LoadTest.initMetrics rfl

/-- Witness for C4 at a concrete single-outcome run. -/
theorem c4_success_plus_failed_eq_total_witness :
    (LoadTest.recordOutcome LoadTest.initMetrics .timeout).successfulRequests
      + (LoadTest.recordOutcome LoadTest.initMetrics .timeout).failedRequests
      = (LoadTest.recordOutcome LoadTest.initMetrics .timeout).totalRequests :=
  (c4_success_plus_failed_eq_total LoadTest.initMetrics .timeout []).1 rfl

/-- C5: on every payload-serving request, a request whose Accept-Encoding
contains "gzip" receives the pre-compressed buffer with
`Content-Encoding: gzip` and `Content-Length` equal to the compressed
buffer's byte length; any other request receives the raw buffer with no
`Content-Encoding` and `Content-Length` equal to the raw buffer's length. -/
theorem c5_payload_compression (p : Server.Payload) (now : ℤ) (elapsed : ℚ)
    (m : Server.Metrics) (req : Server.Request)
    (h1 : req.url ≠ "/health") (h2 : req.url ≠ "/metrics") :
    (jsIncludes req.acceptEncoding "gzip" = true →
      ((Server.handleRequest p now elapsed m req).2).payloadOf
        = some { statusCode := 200
                 contentType := "text/html; charset=utf-8"
                 cacheControl := "public, max-age=300, stale-while-revalidate=600"
                 etag := toString p.htmlBuffer.length ++ "-v1"
                 xContentTypeOptions := "nosniff"
                 xFrameOptions := "DENY"
                 contentEncoding := some "gzip"
                 contentLength := p.compressedHtml.length
                 body := p.compressedHtml }) ∧
    (jsIncludes req.acceptEncoding "gzip" = false →
      ((Server.handleRequest p now elapsed m req).2).payloadOf
        = some { statusCode := 200
                 contentType := "text/html; charset=utf-8"
                 cacheControl := "public, max-age=300, stale-while-revalidate=600"
                 etag := toString p.htmlBuffer.length ++ "-v1"
                 xContentTypeOptions := "nosniff"
                 xFrameOptions := "DENY"
                 contentEncoding := none
                 contentLength := p.htmlBuffer.length
                 body := p.htmlBuffer }) := by
  constructor
  · intro hg
    simp [Server.handleRequest, Server.Response.payloadOf, h1, h2, hg]
  · intro hg
    simp [Server.handleRequest, Server.Response.payloadOf, h1, h2, hg]

/-- Witness for C5: a gzip-accepting request for the root path gets the
compressed buffer; its `Content-Length` matches that buffer's length. -/
theorem c5_payload_compression_witness :
    ((Server.handleRequest ⟨[1, 2, 3], [9, 9]⟩ 0 0 ⟨0, 0, 0, 0⟩
        ⟨"/", "gzip, deflate"⟩).2).payloadOf
      = some { statusCode := 200
               contentType := "text/html; charset=utf-8"
               cacheControl := "public, max-age=300, stale-while-revalidate=600"
               etag := toString ([1, 2, 3] : List ℕ).length ++ "-v1"
               xContentTypeOptions := "nosniff"
               xFrameOptions := "DENY"
               contentEncoding := some "gzip"
               contentLength := ([9, 9] : List ℕ).length
               body := [9, 9] } :=
  (c5_payload_compression ⟨[1, 2, 3], [9, 9]⟩ 0 0 ⟨0, 0, 0, 0⟩
      ⟨"/", "gzip, deflate"⟩ (by decide) (by decide)).1 (by decide)

/-- C6: the "Success Rate > 99%" check is a strict inequality: it fails
when the computed rate is exactly 99 and passes when the rate exceeds 99;
concretely 9900/10000 (99.00%) fails and 9901/10000 (99.01%) passes. -/
theorem c6_success_rate_strict (m : LoadTest.LoadMetrics) :
    (LoadTest.successRate m = JSNum.fin 99 → LoadTest.check1Passed m = false) ∧
    (∀ q : ℚ, LoadTest.successRate m = JSNum.fin q → 99 < q →
      LoadTest.check1Passed m = true) ∧
    LoadTest.check1Passed
      { LoadTest.initMetrics with
        successfulRequests := 9900, totalRequests := 10000 } = false ∧
    LoadTest.check1Passed
      { LoadTest.initMetrics with
        successfulRequests := 9901, totalRequests := 10000 } = true := by
  refine ⟨?_, ?_, ?_, ?_⟩
  · intro h
    norm_num [LoadTest.check1Passed, h, jsGt]
  · intro q h hq
    simp only [LoadTest.check1Passed, h, jsGt, decide_eq_true_iff]
    exact hq
  · norm_num [LoadTest.check1Passed, LoadTest.successRate, jsDivQ, jsMul, jsGt,
      LoadTest.initMetrics]
  · norm_num [LoadTest.check1Passed, LoadTest.successRate, jsDivQ, jsMul, jsGt,
      LoadTest.initMetrics]

/-- Witness for C6 at a run with 99 successes out of 100 (exactly 99%). -/
theorem c6_success_rate_strict_witness :
    LoadTest.check1Passed
      { LoadTest.initMetrics with
        successfulRequests := 99, totalRequests := 100 } = false :=
  (c6_success_rate_strict _).1
    (by norm_num [LoadTest.successRate, jsDivQ, jsMul, LoadTest.initMetrics])

/-- C7: the load generator's exit code is 0 exactly when the run completed
and all four validation checks passed (success rate > 99, P95 < 500,
P99 < 1000, zero connection-refused/reset/timeout errors); every other
case, including an exception escaping the run, exits with code 1. -/
theorem c7_exit_code_iff_checks (r : Except Unit LoadTest.LoadMetrics) :
    (LoadTest.runLoadTestExit r = 0 ↔
      ∃ m, r = Except.ok m ∧ LoadTest.check1Passed m = true ∧
        LoadTest.p95Of m < 500 ∧ LoadTest.p99Of m < 1000 ∧
        LoadTest.connectionErrors m = 0) ∧
    (r = Except.error () → LoadTest.runLoadTestExit r = 1) ∧
    (LoadTest.runLoadTestExit r = 0 ∨ LoadTest.runLoadTestExit r = 1) := by
  cases r with
  | error e =>
      refine ⟨?_, fun _ => rfl, Or.inr rfl⟩
      simp [LoadTest.runLoadTestExit]
  | ok m =>
      refine ⟨?_, fun h => Except.noConfusion h, ?_⟩
      · simp only [LoadTest.runLoadTestExit]
        constructor
        · intro h0
          have h : LoadTest.allChecksPassed m = true := by
            by_contra hc
            simp [LoadTest.loadTestExit, hc] at h0
          exact ⟨m, rfl, (LoadTest.allChecksPassed_iff m).mp h⟩
        · rintro ⟨m', hm', h1, h2, h3, h4⟩
          injection hm' with hmm
          subst hmm
          have h : LoadTest.allChecksPassed m = true :=
            (LoadTest.allChecksPassed_iff m).mpr ⟨h1, h2, h3, h4⟩
          simp [LoadTest.loadTestExit, h]
      · simp only [LoadTest.runLoadTestExit, LoadTest.loadTestExit]
        by_cases h : LoadTest.allChecksPassed m = true
        · exact Or.inl (by simp [h])
        · exact Or.inr (by simp [h])

/-- Witness for C7: an exception escaping the run exits with code 1. -/
theorem c7_exit_code_iff_checks_witness :
    LoadTest.runLoadTestExit (Except.error ()) = 1 :=
  (c7_exit_code_iff_checks (Except.error ())).2.1 rfl

/-- C8: while the primary is alive, a worker exit is answered by exactly
one `cluster.fork()` and the live-worker count returns to its previous
value; a worker exit after the primary's own SIGTERM shutdown (primary
already exited) triggers no fork and the count drops by one. -/
theorem c8_worker_restart (s : Supervisor.SupState)
    (halive : s.primaryAlive = true) (hpos : 0 < s.liveWorkers) :
    ((Supervisor.supStep s .workerExit).liveWorkers = s.liveWorkers ∧
      (Supervisor.supStep s .workerExit).forkCount = s.forkCount + 1) ∧
    ((Supervisor.supStep (Supervisor.supStep s .sigterm) .workerExit).liveWorkers
        = s.liveWorkers - 1 ∧
      (Supervisor.supStep (Supervisor.supStep s .sigterm) .workerExit).forkCount
        = s.forkCount) := by
  simp [Supervisor.supStep, halive]
  omega

/-- Witness for C8 with four live workers. -/
theorem c8_worker_restart_witness :
    (Supervisor.supStep ⟨4, 4, true⟩ .workerExit).liveWorkers = 4 ∧
    (Supervisor.supStep (Supervisor.supStep ⟨4, 4, true⟩ .sigterm)
        .workerExit).liveWorkers = 3 :=
  ⟨((c8_worker_restart ⟨4, 4, true⟩ rfl (by norm_num)).1).1,
   by have h := ((c8_worker_restart ⟨4, 4, true⟩ rfl (by norm_num)).2).1
      simpa using h⟩

/-- C9: every per-request outcome is recorded without aborting the run: a
completed response counts as successful exactly when its status is in
[200, 400) and as failed otherwise; a transport error or the 30000 ms
timeout counts as failed under its classified error kind; and a loop
issuing any list of outcomes records them all. -/
theorem c9_outcome_recording (m : LoadTest.LoadMetrics) :
    (∀ s lat, 200 ≤ s → s < 400 →
      (LoadTest.recordOutcome m (.response s lat)).successfulRequests
          = m.successfulRequests + 1 ∧
      (LoadTest.recordOutcome m (.response s lat)).failedRequests
          = m.failedRequests ∧
      (LoadTest.recordOutcome m (.response s lat)).totalRequests
          = m.totalRequests + 1) ∧
    (∀ s lat, ¬(200 ≤ s ∧ s < 400) →
      (LoadTest.recordOutcome m (.response s lat)).failedRequests
          = m.failedRequests + 1 ∧
      (LoadTest.recordOutcome m (.response s lat)).successfulRequests
          = m.successfulRequests ∧
      (LoadTest.recordOutcome m (.response s lat)).totalRequests
          = m.totalRequests + 1) ∧
    (∀ k, (LoadTest.recordOutcome m (.transportError k)).failedRequests
          = m.failedRequests + 1 ∧
      (LoadTest.recordOutcome m (.transportError k)).errors k = m.errors k + 1 ∧
      (LoadTest.recordOutcome m (.transportError k)).totalRequests
          = m.totalRequests + 1) ∧
    ((LoadTest.recordOutcome m .timeout).failedRequests = m.failedRequests + 1 ∧
      (LoadTest.recordOutcome m .timeout).errors "TIMEOUT"
          = m.errors "TIMEOUT" + 1 ∧
      (LoadTest.recordOutcome m .timeout).totalRequests = m.totalRequests + 1) ∧
    (∀ os : List LoadTest.Outcome,
      (os.foldl LoadTest.recordOutcome m).totalRequests
          = m.totalRequests + os.length) ∧
    LoadTest.requestTimeoutMs = 30000 := by
  refine ⟨?_, ?_, ?_, ?_, ?_, rfl⟩
  · intro s lat h1 h2
    simp [LoadTest.recordOutcome, h1, h2]
  · intro s lat h
    simp [LoadTest.recordOutcome, h]
  · intro k
    simp [LoadTest.recordOutcome]
  · simp [LoadTest.recordOutcome]
  · intro os
    exact LoadTest.foldl_record_total os m

/-- Witness for C9: a 200 response on the fresh metrics object counts as
one successful request. -/
theorem c9_outcome_recording_witness :
    (LoadTest.recordOutcome LoadTest.initMetrics (.response 200 5)).successfulRequests
      = LoadTest.initMetrics.successfulRequests + 1 :=
  ((c9_outcome_recording LoadTest.initMetrics).1 200 5 (by norm_num) (by norm_num)).1

/-- C10: a completed run with zero total requests has success rate NaN
(0/0), fails the success-rate check, yet has P95 = P99 = 0 because the
percentile of the empty sample list is 0, so the latency checks pass; the
exit code is 1. -/
theorem c10_zero_requests_run (os : List LoadTest.Outcome)
    (h : (LoadTest.runStats os).totalRequests = 0) :
    LoadTest.successRate (LoadTest.runStats os) = JSNum.nan ∧
    LoadTest.check1Passed (LoadTest.runStats os) = false ∧
    LoadTest.p95Of (LoadTest.runStats os) = 0 ∧
    LoadTest.p99Of (LoadTest.runStats os) = 0 ∧
    LoadTest.check2Passed (LoadTest.runStats os) = true ∧
    LoadTest.check3Passed (LoadTest.runStats os) = true ∧
    LoadTest.loadTestExit (LoadTest.runStats os) = 1 := by
  have hlen : os.length = 0 := by
    have htot := LoadTest.foldl_record_total os LoadTest.initMetrics
    rw [LoadTest.runStats, htot] at h
    omega
  obtain rfl : os = [] := List.length_eq_zero.mp hlen
  refine ⟨?_, ?_, ?_, ?_, ?_, ?_, ?_⟩
  · norm_num [LoadTest.runStats, LoadTest.successRate, jsDivQ, jsMul,
      LoadTest.initMetrics]
  · norm_num [LoadTest.runStats, LoadTest.check1Passed, LoadTest.successRate,
      jsDivQ, jsMul, jsGt, LoadTest.initMetrics]
  · simp [LoadTest.runStats, LoadTest.p95Of, LoadTest.sortAsc,
      LoadTest.calculatePercentile, LoadTest.initMetrics]
  · simp [LoadTest.runStats, LoadTest.p99Of, LoadTest.sortAsc,
      LoadTest.calculatePercentile, LoadTest.initMetrics]
  · norm_num [LoadTest.runStats, LoadTest.check2Passed, LoadTest.p95Of,
      LoadTest.sortAsc, LoadTest.calculatePercentile, LoadTest.initMetrics]
  · norm_num [LoadTest.runStats, LoadTest.check3Passed, LoadTest.p99Of,
      LoadTest.sortAsc, LoadTest.calculatePercentile, LoadTest.initMetrics]
  · norm_num [LoadTest.runStats, LoadTest.loadTestExit, LoadTest.allChecksPassed,
      LoadTest.check1Passed, LoadTest.successRate, jsDivQ, jsMul, jsGt,
      LoadTest.initMetrics]

/-- Witness for C10: the empty run exits with code 1. -/
theorem c10_zero_requests_run_witness :
    LoadTest.loadTestExit (LoadTest.runStats []) = 1 :=
  (c10_zero_requests_run [] rfl).2.2.2.2.2.2
